import Mathlib

/-!
Shallow embedding of the adapter/device layer of the gfx OpenGL backend
(src/backend/gl/src/lib.rs and src/backend/gl/src/native.rs), together with
theorems settling the specification claims about it.

Modelling conventions:
* machine integers and bitflag sets are `Nat` bitmasks;
* the raw GL context, queried `Info` and `Limits` are opaque to every claim
  and are left out of the `Share` record (no claim inspects them);
* interior mutability (`Cell<bool>`) becomes explicit state passing;
* a Rust `panic!` / failed `assert!` is modelled as `Option.none` or a
  dedicated `panicked` outcome.
-/

namespace Gfx

/-! ## Bitflag constants (gfx-hal `memory::Properties` and `buffer::Usage`) -/

def DEVICE_LOCAL_HEAP : Nat := 0
def CPU_VISIBLE_HEAP : Nat := 1

namespace Properties

def DEVICE_LOCAL : Nat := 0x1
def CPU_VISIBLE : Nat := 0x2
def COHERENT : Nat := 0x4
def CPU_CACHED : Nat := 0x8

end Properties

namespace Usage

def TRANSFER_SRC : Nat := 0x1
def TRANSFER_DST : Nat := 0x2
def UNIFORM_TEXEL : Nat := 0x4
def STORAGE_TEXEL : Nat := 0x8
def UNIFORM : Nat := 0x10
def STORAGE : Nat := 0x20
def INDEX : Nat := 0x40
def VERTEX : Nat := 0x80
def INDIRECT : Nat := 0x100

/-- `buffer::Usage::all()`: the union of all usage flags. -/
def all : Nat := 0x1FF

end Usage

/-- bitflags `contains`: every bit of `other` is set in `self`. -/
def flagsContains (self other : Nat) : Bool := self &&& other == other

/-- bitflags difference `a - b` (`a & !b`), as used by
`buffer::Usage::all() - buffer::Usage::INDEX`; on bit sets
`a & !b = a ^ (a & b)`. -/
def flagsDiff (a b : Nat) : Nat := a ^^^ (a &&& b)

/-- `hal::MemoryType`: a property-flag set plus a heap index. -/
structure MemoryType where
  properties : Nat
  heap_index : Nat
deriving DecidableEq, Repr

/-- Memory types are either usable for buffers (restricted to a usage-flag
subset) or used for images with no real backing buffer
(`enum MemoryUsage` in lib.rs). -/
inductive MemoryUsage where
  | Buffer (usage : Nat)
  | Image
deriving DecidableEq, Repr

/-- The private capability flags of `info::PrivateCaps` consumed by
`PhysicalDevice::new_adapter` and `open` (the `info` module itself holds
more flags; only these are read by the code under study). -/
structure PrivateCaps where
  map : Bool
  buffer_storage : Bool
  emulate_map : Bool
  index_buffer_role_change : Bool
  vertex_array : Bool
deriving DecidableEq, Repr

/-- The `add_memory_type` closure of `new_adapter`: push one combined
buffer entry when `index_buffer_role_change` is set, otherwise split into
an INDEX-only entry followed by an everything-but-INDEX entry. -/
def add_memory_type (caps : PrivateCaps) (memory_type : MemoryType) :
    List (MemoryType × MemoryUsage) :=
  if caps.index_buffer_role_change then
    [(memory_type, MemoryUsage.Buffer Usage.all)]
  else
    [(memory_type, MemoryUsage.Buffer Usage.INDEX),
     (memory_type, MemoryUsage.Buffer (flagsDiff Usage.all Usage.INDEX))]

/-- The memory-type table synthesized by `PhysicalDevice::new_adapter`:
coherent+cached and coherent host-visible types when persistent mapping and
`glBufferStorage` are available, a cached host-visible type when mapping is
native or emulated, always a device-local buffer type, and finally the
single device-local image type. -/
def memory_types (caps : PrivateCaps) : List (MemoryType × MemoryUsage) :=
  (if caps.map && caps.buffer_storage then
    add_memory_type caps
      ⟨Properties.CPU_VISIBLE ||| Properties.CPU_CACHED ||| Properties.COHERENT,
       CPU_VISIBLE_HEAP⟩ ++
    add_memory_type caps
      ⟨Properties.CPU_VISIBLE ||| Properties.COHERENT, CPU_VISIBLE_HEAP⟩
  else []) ++
  (if caps.map || caps.emulate_map then
    add_memory_type caps
      ⟨Properties.CPU_VISIBLE ||| Properties.CPU_CACHED, CPU_VISIBLE_HEAP⟩
  else []) ++
  add_memory_type caps ⟨Properties.DEVICE_LOCAL, DEVICE_LOCAL_HEAP⟩ ++
  [(⟨Properties.DEVICE_LOCAL, DEVICE_LOCAL_HEAP⟩, MemoryUsage.Image)]

/-- The capability classes the ordering claim speaks about, read off an
entry's property flags: coherent+cached host-visible, coherent-only
host-visible, cached-only host-visible, device-local — buffer entries
only; image entries carry no rank. -/
def memTypeRank (e : MemoryType × MemoryUsage) : Option Nat :=
  match e.2 with
  | MemoryUsage.Image => none
  | MemoryUsage.Buffer _ =>
    if e.1.properties =
        Properties.CPU_VISIBLE ||| Properties.CPU_CACHED ||| Properties.COHERENT then
      some 0
    else if e.1.properties = Properties.CPU_VISIBLE ||| Properties.COHERENT then
      some 1
    else if e.1.properties = Properties.CPU_VISIBLE ||| Properties.CPU_CACHED then
      some 2
    else if e.1.properties = Properties.DEVICE_LOCAL then
      some 3
    else none

/-- Strict order on ranked (buffer) entries; entries without a rank are
never related. -/
def memTypeRankLt (a b : MemoryType × MemoryUsage) : Bool :=
  match memTypeRank a, memTypeRank b with
  | some x, some y => x < y
  | _, _ => false

/-- The sequence of `hal::MemoryType` arguments passed to the
`add_memory_type` closure by `new_adapter`, in call order. -/
def addedTypes (caps : PrivateCaps) : List MemoryType :=
  (if caps.map && caps.buffer_storage then
    [⟨Properties.CPU_VISIBLE ||| Properties.CPU_CACHED ||| Properties.COHERENT,
      CPU_VISIBLE_HEAP⟩,
     ⟨Properties.CPU_VISIBLE ||| Properties.COHERENT, CPU_VISIBLE_HEAP⟩]
  else []) ++
  (if caps.map || caps.emulate_map then
    [⟨Properties.CPU_VISIBLE ||| Properties.CPU_CACHED, CPU_VISIBLE_HEAP⟩]
  else []) ++
  [⟨Properties.DEVICE_LOCAL, DEVICE_LOCAL_HEAP⟩]

/-- An entry backed by a real buffer (as opposed to the fake image type). -/
def isBufferEntry (e : MemoryType × MemoryUsage) : Bool :=
  match e.2 with
  | MemoryUsage.Buffer _ => true
  | MemoryUsage.Image => false

/-- The capabilities with all flags cleared. -/
def capsAllFalse : PrivateCaps := ⟨false, false, false, false, false⟩

/-- The capabilities with all flags set. -/
def capsAllTrue : PrivateCaps := ⟨true, true, true, true, true⟩

/-! ## `Share` (the shared context) and its memory-type masks -/

/-- `struct Share` from lib.rs: the data shared between the physical and
logical device. The raw GL container and the queried `Info` are opaque
handles from the claims' point of view and are not carried; `features` and
`legacy_features` are bitflag sets, `limits` stands in for `hal::Limits`
as opaque data. The `open` flag (`Cell<bool>` in the source) is a plain
field updated by explicit state passing. -/
structure Share where
  features : Nat
  legacy_features : Nat
  limits : Nat
  private_caps : PrivateCaps
  «open» : Bool
  memory_types : List (MemoryType × MemoryUsage)
deriving DecidableEq, Repr

/-- The loop body of `Share::buffer_memory_type_mask`: scan entries from
index `idx` upwards, OR-ing `1 << index` for every buffer entry whose
usage set contains the requested usage. -/
def buffer_mask_from (l : List (MemoryType × MemoryUsage)) (idx : Nat)
    (usage : Nat) : Nat :=
  match l with
  | [] => 0
  | (_, MemoryUsage.Buffer buffer_usage) :: rest =>
    (if flagsContains buffer_usage usage then 1 <<< idx else 0) |||
      buffer_mask_from rest (idx + 1) usage
  | (_, MemoryUsage.Image) :: rest => buffer_mask_from rest (idx + 1) usage

/-- The loop body of `Share::image_memory_type_mask`: OR `1 << index` for
every image entry. -/
def image_mask_from (l : List (MemoryType × MemoryUsage)) (idx : Nat) : Nat :=
  match l with
  | [] => 0
  | (_, MemoryUsage.Buffer _) :: rest => image_mask_from rest (idx + 1)
  | (_, MemoryUsage.Image) :: rest =>
    (1 <<< idx) ||| image_mask_from rest (idx + 1)

/-- `Share::buffer_memory_type_mask` (the zero mask only triggers a log
diagnostic in the source, so the returned value is the mask either way). -/
def Share.buffer_memory_type_mask (s : Share) (usage : Nat) : Nat :=
  buffer_mask_from s.memory_types 0 usage

/-- `Share::image_memory_type_mask`; the source asserts the result is
non-zero, which holds for every adapter-constructed table since the image
entry is always appended. -/
def Share.image_memory_type_mask (s : Share) : Nat :=
  image_mask_from s.memory_types 0

/-- The `Share` value built at the end of `PhysicalDevice::new_adapter`:
`open` starts false and the memory-type table is the synthesized one. -/
def new_adapter_share (caps : PrivateCaps) (features legacy_features limits : Nat) :
    Share :=
  { features := features
    legacy_features := legacy_features
    limits := limits
    private_caps := caps
    «open» := false
    memory_types := memory_types caps }

/-! ## `PhysicalDevice::open` -/

/-- `error::DeviceCreationError` variants returned by `open`. -/
inductive DeviceCreationError where
  | TooManyObjects
  | MissingFeature
deriving DecidableEq, Repr

/-- `struct QueueFamily` is a unit struct in the source. -/
structure QueueFamily where
deriving DecidableEq, Repr

/-- A queue priority (`f32` in the source); only the number of priorities
per family is ever read (`assert_eq!(priorities.len(), 1)`), never a
value, so the payload is irrelevant. -/
abbrev QueuePriority : Type := Unit

/-- The successfully opened `hal::Gpu`: a device plus one queue group per
requested family, each wrapping the same shared context. Only the group
count is observable in this model. -/
structure Gpu where
  queue_groups : Nat
deriving DecidableEq, Repr

/-- Outcome of `open`: a device-creation error, a panic (a family with a
priority count other than one fails `assert_eq!`, and a sticky GL error
makes the final debug `check()` panic — the latter has no GL state here),
or success. -/
inductive OpenOutcome where
  | err (e : DeviceCreationError)
  | panicked
  | ok (gpu : Gpu)
deriving DecidableEq, Repr

/-- `PhysicalDevice::open` from lib.rs, as a state transformer on `Share`.
Mirrors the source order exactly: the too-many-objects guard reads the
`open` flag first; the flag is then set to true BEFORE the requested
features are checked against the advertised ones; GL state initialization
(SRGB enable, unpack alignment, VAO creation) touches only the raw
context and is not observable here. -/
def PhysicalDevice.«open» (s : Share)
    (families : List (QueueFamily × List QueuePriority))
    (requested_features : Nat) : OpenOutcome × Share :=
  if s.«open» then
    (OpenOutcome.err DeviceCreationError.TooManyObjects, s)
  else
    let s' := { s with «open» := true }
    if !(flagsContains s.features requested_features) then
      (OpenOutcome.err DeviceCreationError.MissingFeature, s')
    else if families.all (fun f => f.2.length == 1) then
      (OpenOutcome.ok ⟨families.length⟩, s')
    else
      (OpenOutcome.panicked, s')

/-! ## `Starc`: the single-threaded `Arc` -/

/-- Thread identities (`std::thread::ThreadId`) are abstract tokens; `Nat`
suffices since only equality is ever used. -/
abbrev ThreadId : Type := Nat

/-- `Starc<T>`: shared ownership of a payload plus the identity of the
thread that created it. The `Arc` reference count is not observable
through `clone`/`deref` and is not carried. -/
structure Starc (T : Type) where
  arc : T
  thread : ThreadId

/-- `Starc::new` captures the calling thread's identity. -/
def Starc.new {T : Type} (current : ThreadId) (value : T) : Starc T :=
  { arc := value, thread := current }

/-- `Clone for Starc`: clones the shared pointer and copies the STORED
thread identity (not the cloning thread's). -/
def Starc.clone {T : Type} (s : Starc T) : Starc T :=
  { arc := s.arc, thread := s.thread }

/-- `n`-fold `clone`, standing for an arbitrary chain of clones (and hence
an arbitrary reference count). -/
def Starc.cloneN {T : Type} : Nat → Starc T → Starc T
  | 0, s => s
  | n + 1, s => (Starc.cloneN n s).clone

/-- `Deref for Starc`: `assert_eq!(thread::current().id(), self.thread)`
then hand out the payload; the failed assertion (a fatal cross-thread
access) is `none`. -/
def Starc.deref {T : Type} (current : ThreadId) (s : Starc T) : Option T :=
  if current = s.thread then some s.arc else none

/-! ## `native::Buffer` -/

/-- Raw GL buffer names are opaque handles; `Nat` suffices. -/
abbrev RawBuffer : Type := Nat

/-- `enum Buffer` from native.rs: created `Unbound { size, usage }`,
transitioned to `Bound { buffer, range }` at memory-bind time. A byte
range `Range<u64>` is a (start, end) pair. -/
inductive Buffer where
  | Unbound (size : Nat) (usage : Nat)
  | Bound (buffer : RawBuffer) (range : Nat × Nat)

/-- `Buffer::as_bound`: panics (`none`) on an unbound buffer, otherwise
returns the raw GL buffer and its sub-range. -/
def Buffer.as_bound : Buffer → Option (RawBuffer × (Nat × Nat))
  | Buffer.Unbound _ _ => none
  | Buffer.Bound buffer range => some (buffer, range)

/-! ## `native::DescRemapData` -/

/-- `enum BindingTypes` from native.rs. -/
inductive BindingTypes where
  | Images
  | UniformBuffers
deriving DecidableEq, Repr

/-- `struct DescRemapData`: the three hash maps are modelled as partial
functions (`FastHashMap` lookup is `Option`-valued). `bindings` maps a
(kind, set, binding) key to the ordered flat slots assigned to it,
`names` maps a resource name to its key, and `next_binding` holds the
per-kind next-free-slot counter. -/
structure DescRemapData where
  bindings : BindingTypes × Nat × Nat → Option (List Nat)
  names : String → Option (BindingTypes × Nat × Nat)
  next_binding : BindingTypes → Option Nat

/-- `DescRemapData::new`: the three maps start empty. -/
def DescRemapData.new : DescRemapData :=
  { bindings := fun _ => none
    names := fun _ => none
    next_binding := fun _ => none }

/-- `DescRemapData::insert_missing_binding_into_spare`: read the per-kind
counter (`entry(btype).or_insert(0)` — default 0), append that slot to
the key's slot list (`entry(..).or_insert(Vec::new())` then `push`), then
increment the counter. Returns the key's updated slot list together with
the updated table. -/
def DescRemapData.insert_missing_binding_into_spare (d : DescRemapData)
    (btype : BindingTypes) (set binding : Nat) :
    List Nat × DescRemapData :=
  let nb := (d.next_binding btype).getD 0
  let val := ((d.bindings (btype, set, binding)).getD []) ++ [nb]
  (val,
   { bindings := fun k =>
       if k = (btype, set, binding) then some val else d.bindings k
     names := d.names
     next_binding := fun b =>
       if b = btype then some (nb + 1) else d.next_binding b })

/-- `DescRemapData::reserve_binding`: increment the per-kind counter and
return its previous value. -/
def DescRemapData.reserve_binding (d : DescRemapData) (btype : BindingTypes) :
    Nat × DescRemapData :=
  let nb := (d.next_binding btype).getD 0
  (nb,
   { bindings := d.bindings
     names := d.names
     next_binding := fun b =>
       if b = btype then some (nb + 1) else d.next_binding b })

/-- `DescRemapData::insert_missing_binding`: append a caller-supplied slot
`nb` to the key's slot list without touching the counter. -/
def DescRemapData.insert_missing_binding (d : DescRemapData) (nb : Nat)
    (btype : BindingTypes) (set binding : Nat) :
    List Nat × DescRemapData :=
  let val := ((d.bindings (btype, set, binding)).getD []) ++ [nb]
  (val,
   { bindings := fun k =>
       if k = (btype, set, binding) then some val else d.bindings k
     names := d.names
     next_binding := d.next_binding })

/-- `DescRemapData::get_binding`: look up the ordered slots assigned to a
key; `none` when the key was never registered. -/
def DescRemapData.get_binding (d : DescRemapData) (btype : BindingTypes)
    (set binding : Nat) : Option (List Nat) :=
  d.bindings (btype, set, binding)

/-- The flat slots issued (in order) to insertions of the requested kind
while running a sequence of `insert_missing_binding_into_spare` calls
against a table. -/
def issuedFrom (d : DescRemapData) :
    List (BindingTypes × Nat × Nat) → BindingTypes → List Nat
  | [], _ => []
  | (bt, set, binding) :: rest, btype =>
    (if bt = btype then [(d.next_binding bt).getD 0] else []) ++
      issuedFrom (d.insert_missing_binding_into_spare bt set binding).2 rest btype

/-! ## Device classification (`new_adapter`, lines 423–484) -/

/-- ASCII lowering, the fragment of Rust's `to_lowercase` exercised by
the vendor/renderer strings compared here. -/
def lowerChar (c : Char) : Char :=
  if 65 ≤ c.toNat && c.toNat ≤ 90 then Char.ofNat (c.toNat + 32) else c

/-- `str::to_lowercase` on ASCII strings. -/
def toLowerStr (s : String) : String := ⟨s.data.map lowerChar⟩

/-- Does the character list start with the needle? -/
def charListStartsWith : List Char → List Char → Bool
  | [], _ => true
  | _ :: _, [] => false
  | n :: ns, h :: hs => n == h && charListStartsWith ns hs

/-- Does the character list contain the needle as a contiguous run? -/
def charListContainsSub (needle : List Char) : List Char → Bool
  | [] => charListStartsWith needle []
  | h :: hs => charListStartsWith needle (h :: hs) || charListContainsSub needle hs

/-- `str::contains` with a substring pattern. -/
def strContainsSub (hay needle : String) : Bool :=
  charListContainsSub needle.data hay.data

/-- `hal::adapter::DeviceType`. -/
inductive DeviceType where
  | Other
  | IntegratedGpu
  | DiscreteGpu
  | VirtualGpu
  | Cpu
deriving DecidableEq, Repr

/-- The fixed renderer substrings that imply an integrated GPU. -/
def strings_that_imply_integrated : List String :=
  [" xpress",
   "radeon hd 4200",
   "radeon hd 4250",
   "radeon hd 4290",
   "radeon hd 4270",
   "radeon hd 4225",
   "radeon hd 3100",
   "radeon hd 3200",
   "radeon hd 3000",
   "radeon hd 3300",
   "radeon(tm) r4 graphics",
   "radeon(tm) r5 graphics",
   "radeon(tm) r6 graphics",
   "radeon(tm) r7 graphics",
   "radeon r7 graphics",
   "nforce",
   "tegra",
   "shield",
   "igp",
   "mali",
   "intel"]

/-- The fixed renderer substrings that imply a CPU software rasterizer. -/
def strings_that_imply_cpu : List String :=
  ["mesa offscreen"]

/-- The device-type inference of `new_adapter`: lower-case the vendor and
renderer strings, classify as integrated when the vendor names qualcomm
or intel or the renderer matches a known integrated fragment, as cpu when
the renderer matches a software rasterizer, and as discrete otherwise. -/
def inferred_device_type (vendor renderer : String) : DeviceType :=
  let vendor_lower := toLowerStr vendor
  let renderer_lower := toLowerStr renderer
  if strContainsSub vendor_lower "qualcomm" ||
      strContainsSub vendor_lower "intel" ||
      strings_that_imply_integrated.any
        (fun s => strContainsSub renderer_lower s) then
    DeviceType.IntegratedGpu
  else if strings_that_imply_cpu.any
      (fun s => strContainsSub renderer_lower s) then
    DeviceType.Cpu
  else
    DeviceType.DiscreteGpu

/-- The vendor-id inference of `new_adapter` from known vendor-name
substrings, defaulting to zero. -/
def vendor_id (vendor : String) : Nat :=
  let vendor_lower := toLowerStr vendor
  if strContainsSub vendor_lower "amd" then 0x1002
  else if strContainsSub vendor_lower "imgtec" then 0x1010
  else if strContainsSub vendor_lower "nvidia" then 0x10DE
  else if strContainsSub vendor_lower "arm" then 0x13B5
  else if strContainsSub vendor_lower "qualcomm" then 0x5143
  else if strContainsSub vendor_lower "intel" then 0x8086
  else 0

/-! ## Theorems -/

/-- **C3.** For every combination of the capability flags, the memory-type
table synthesized during adapter construction has length at most 64, so the
assertion `assert!(memory_types.len() <= 64)` never fails. -/
theorem memory_types_len_le_64 (caps : PrivateCaps) :
    (memory_types caps).length ≤ 64 := by
  rcases caps with ⟨m, b, e, i, v⟩
  cases m <;> cases b <;> cases e <;> cases i <;> cases v <;> decide

/-- **C4.** In every synthesized memory-type table, an entry of a more
capable class (coherent+cached < coherent-only < cached-only <
device-local buffer) occurs at a strictly lower index than any entry of a
less capable class. -/
theorem memory_types_rank_ordered (caps : PrivateCaps)
    (i j : Fin (memory_types caps).length)
    (h : memTypeRankLt ((memory_types caps).get i) ((memory_types caps).get j)
          = true) :
    (i : Nat) < (j : Nat) := by
  revert i j h
  rcases caps with ⟨m, b, e, i, v⟩
  cases m <;> cases b <;> cases e <;> cases i <;> cases v <;> decide

/-- Witness for C4 at a concrete table: with every capability set, the
coherent+cached entry (index 0) precedes the coherent-only entry
(index 1). -/
theorem memory_types_rank_ordered_witness :
    memTypeRankLt ((memory_types capsAllTrue).get ⟨0, by decide⟩)
        ((memory_types capsAllTrue).get ⟨1, by decide⟩) = true ∧
    (0 : Nat) < 1 :=
  ⟨by decide,
   memory_types_rank_ordered capsAllTrue ⟨0, by decide⟩ ⟨1, by decide⟩
     (by decide)⟩

/-- **C5.** When `index_buffer_role_change` is false every buffer memory
type added during adapter construction becomes exactly two table entries
(index-only, then everything-but-index); when it is true, exactly one
combined entry; and the all-false capabilities yield exactly the 3-entry
table (index-only device-local, everything-but-index device-local, image). -/
theorem memory_types_split :
    (∀ caps : PrivateCaps, caps.index_buffer_role_change = false →
      (memory_types caps).filter isBufferEntry =
        (addedTypes caps).flatMap (fun mt =>
          [(mt, MemoryUsage.Buffer Usage.INDEX),
           (mt, MemoryUsage.Buffer (flagsDiff Usage.all Usage.INDEX))])) ∧
    (∀ caps : PrivateCaps, caps.index_buffer_role_change = true →
      (memory_types caps).filter isBufferEntry =
        (addedTypes caps).map (fun mt => (mt, MemoryUsage.Buffer Usage.all))) ∧
    memory_types capsAllFalse =
      [(⟨Properties.DEVICE_LOCAL, DEVICE_LOCAL_HEAP⟩,
          MemoryUsage.Buffer Usage.INDEX),
       (⟨Properties.DEVICE_LOCAL, DEVICE_LOCAL_HEAP⟩,
          MemoryUsage.Buffer (flagsDiff Usage.all Usage.INDEX)),
       (⟨Properties.DEVICE_LOCAL, DEVICE_LOCAL_HEAP⟩, MemoryUsage.Image)] := by
  refine ⟨?_, ?_, by decide⟩ <;>
    · rintro ⟨m, b, e, i, v⟩ h
      cases m <;> cases b <;> cases e <;> cases i <;> cases v <;>
        first
        | decide
        | cases h

/-- Witness for C5: the split equation evaluated at the all-false
capabilities. -/
theorem memory_types_split_witness :
    capsAllFalse.index_buffer_role_change = false ∧
    (memory_types capsAllFalse).filter isBufferEntry =
      (addedTypes capsAllFalse).flatMap (fun mt =>
        [(mt, MemoryUsage.Buffer Usage.INDEX),
         (mt, MemoryUsage.Buffer (flagsDiff Usage.all Usage.INDEX))]) :=
  ⟨rfl, memory_types_split.1 capsAllFalse rfl⟩

/-- **C1 (refuting evaluation).** On a fresh `Share` advertising no
features, an `open` requesting an unsupported feature returns the
missing-feature error but leaves the `open` flag SET (the source flips the
flag before the feature check), so a subsequent `open` with a supported
feature subset fails with too-many-objects instead of succeeding. -/
theorem open_missing_feature_leaves_open_set :
    (PhysicalDevice.«open» (new_adapter_share capsAllFalse 0 0 0) [] 1).1 =
      OpenOutcome.err DeviceCreationError.MissingFeature ∧
    ((PhysicalDevice.«open» (new_adapter_share capsAllFalse 0 0 0) [] 1).2).«open» =
      true ∧
    (PhysicalDevice.«open»
        ((PhysicalDevice.«open» (new_adapter_share capsAllFalse 0 0 0) [] 1).2)
        [] 0).1 =
      OpenOutcome.err DeviceCreationError.TooManyObjects := by
  decide

/-- **C2.** A second `open` on a `Share` whose device is already open
returns the too-many-objects error with the `Share` completely unchanged,
while a first `open` on a fresh `Share` with a supported feature request
(and one priority per family) succeeds, returning one queue group per
family and flipping only the `open` flag. -/
theorem open_single_device_guard (s : Share)
    (families : List (QueueFamily × List QueuePriority)) (req : Nat) :
    (s.«open» = true →
      PhysicalDevice.«open» s families req =
        (OpenOutcome.err DeviceCreationError.TooManyObjects, s)) ∧
    (s.«open» = false → flagsContains s.features req = true →
      families.all (fun f => f.2.length == 1) = true →
      PhysicalDevice.«open» s families req =
        (OpenOutcome.ok ⟨families.length⟩, { s with «open» := true })) := by
  constructor
  · intro h
    simp [PhysicalDevice.«open», h]
  · intro h1 h2 h3
    simp [PhysicalDevice.«open», h1, h2, h3]

/-- Witness for C2: the success branch on a fresh adapter share advertising
features `0b11`, requesting feature `0b1`, with one family of one
priority. -/
theorem open_single_device_guard_witness :
    (new_adapter_share capsAllFalse 3 0 0).«open» = false ∧
    flagsContains (new_adapter_share capsAllFalse 3 0 0).features 1 = true ∧
    ([(⟨⟩, [()])] : List (QueueFamily × List QueuePriority)).all
      (fun f => f.2.length == 1) = true ∧
    PhysicalDevice.«open» (new_adapter_share capsAllFalse 3 0 0) [(⟨⟩, [()])] 1 =
      (OpenOutcome.ok ⟨1⟩,
       { new_adapter_share capsAllFalse 3 0 0 with «open» := true }) :=
  ⟨rfl, rfl, rfl,
   (open_single_device_guard (new_adapter_share capsAllFalse 3 0 0)
     [(⟨⟩, [()])] 1).2 rfl rfl rfl⟩

/-- **C6.** A `Starc` created on thread `a` keeps — through any chain of
clones — the owning-thread identity `a`; dereferencing it from a different
thread `b` fails fatally, and dereferencing on the owning thread yields
the payload, for every payload type. -/
theorem starc_thread_confinement (T : Type) (v : T) (a b : ThreadId)
    (n : Nat) (hb : b ≠ a) :
    (Starc.cloneN n (Starc.new a v)).thread = a ∧
    Starc.deref b (Starc.cloneN n (Starc.new a v)) = none ∧
    Starc.deref a (Starc.cloneN n (Starc.new a v)) = some v := by
  have hpres : ∀ m : Nat,
      (Starc.cloneN m (Starc.new a v)).thread = a ∧
      (Starc.cloneN m (Starc.new a v)).arc = v := by
    intro m
    induction m with
    | zero => exact ⟨rfl, rfl⟩
    | succ k ih =>
      simpa [Starc.cloneN, Starc.clone] using ih
  refine ⟨(hpres n).1, ?_, ?_⟩
  · simp [Starc.deref, (hpres n).1, hb]
  · simp [Starc.deref, (hpres n).1, (hpres n).2]

/-- Witness for C6: a handle created on thread 0, cloned twice, cannot be
dereferenced from thread 1 but yields its payload on thread 0. -/
theorem starc_thread_confinement_witness :
    ((1 : ThreadId) ≠ (0 : ThreadId)) ∧
    ((Starc.cloneN 2 (Starc.new 0 (42 : Nat))).thread = 0 ∧
     Starc.deref 1 (Starc.cloneN 2 (Starc.new 0 (42 : Nat))) = none ∧
     Starc.deref 0 (Starc.cloneN 2 (Starc.new 0 (42 : Nat))) = some 42) :=
  ⟨by decide, starc_thread_confinement Nat 42 0 1 2 (by decide)⟩

/-- **C8.** `as_bound` fails fatally on every `Unbound` buffer, whatever
its size and usage; on a `Bound` buffer it returns exactly the stored raw
handle and byte range — in particular `Bound { 5, 0..256 }` yields handle
5 and range (0, 256). -/
theorem buffer_as_bound_spec :
    (∀ size usage : Nat, (Buffer.Unbound size usage).as_bound = none) ∧
    (∀ (b : RawBuffer) (r : Nat × Nat),
      (Buffer.Bound b r).as_bound = some (b, r)) ∧
    (Buffer.Bound 5 (0, 256)).as_bound = some (5, (0, 256)) :=
  ⟨fun _ _ => rfl, fun _ _ => rfl, rfl⟩

/-- **C9.** Device classification on the claim's concrete inputs: a
renderer containing "Intel(R) UHD Graphics" is integrated, one containing
"Mesa Offscreen" is cpu, the NVIDIA/GeForce pair matches neither pattern
set and is discrete; the vendor string "NVIDIA Corporation" maps to vendor
id 0x10DE and an unknown vendor maps to 0. -/
theorem device_classification_spec :
    inferred_device_type "" "Intel(R) UHD Graphics" = DeviceType.IntegratedGpu ∧
    inferred_device_type "" "Mesa Offscreen" = DeviceType.Cpu ∧
    inferred_device_type "NVIDIA Corporation" "GeForce RTX" =
      DeviceType.DiscreteGpu ∧
    vendor_id "NVIDIA Corporation" = 0x10DE ∧
    vendor_id "Fantasy Vendor" = 0 := by
  decide

/-- Helper: `insert_missing_binding_into_spare` updates the per-kind
counter of the inserted kind to one past the issued slot and leaves the
other counters alone. -/
theorem into_spare_next_binding (d : DescRemapData) (bt : BindingTypes)
    (set binding : Nat) (b : BindingTypes) :
    ((d.insert_missing_binding_into_spare bt set binding).2).next_binding b =
      if b = bt then some ((d.next_binding bt).getD 0 + 1)
      else d.next_binding b :=
  rfl

/-- Helper: every slot issued by a run of insertions is at least the
starting value of the per-kind counter. -/
theorem issuedFrom_lower_bound (ops : List (BindingTypes × Nat × Nat))
    (btype : BindingTypes) :
    ∀ d : DescRemapData, ∀ x ∈ issuedFrom d ops btype,
      (d.next_binding btype).getD 0 ≤ x := by
  induction ops with
  | nil =>
    intro d x hx
    simp [issuedFrom] at hx
  | cons op rest ih =>
    obtain ⟨bt, set, binding⟩ := op
    intro d x hx
    rw [issuedFrom, List.mem_append] at hx
    by_cases hbt : bt = btype
    · subst hbt
      rcases hx with hx | hx
      · simp at hx
        omega
      · have := ih (d.insert_missing_binding_into_spare bt set binding).2 x hx
        rw [into_spare_next_binding] at this
        simp at this
        omega
    · rcases hx with hx | hx
      · simp [hbt] at hx
      · have := ih (d.insert_missing_binding_into_spare bt set binding).2 x hx
        rwa [into_spare_next_binding, if_neg (fun h => hbt h.symm)] at this

/-- Helper: the slots issued for a kind by any run of insertions form a
strictly increasing sequence. -/
theorem issuedFrom_sorted (ops : List (BindingTypes × Nat × Nat))
    (btype : BindingTypes) :
    ∀ d : DescRemapData, List.Sorted (· < ·) (issuedFrom d ops btype) := by
  induction ops with
  | nil =>
    intro d
    simp [issuedFrom]
  | cons op rest ih =>
    obtain ⟨bt, set, binding⟩ := op
    intro d
    rw [issuedFrom]
    by_cases hbt : bt = btype
    · subst hbt
      rw [if_pos rfl, List.singleton_append, List.sorted_cons]
      refine ⟨?_, ih _⟩
      intro x hx
      have := issuedFrom_lower_bound rest bt
        (d.insert_missing_binding_into_spare bt set binding).2 x hx
      rw [into_spare_next_binding, if_pos rfl] at this
      simp at this
      omega
    · rw [if_neg hbt, List.nil_append]
      exact ih _

/-- **C7.** Starting from an empty `DescRemapData`, every sequence of
`insert_missing_binding_into_spare` calls issues, per binding kind, a
strictly increasing (hence never reused) sequence of flat slots; and for
the concrete scenario — kind=Images at (0,0), then (0,1), then (1,0) —
the three issued slots are 0 < 1 < 2, `get_binding` returns exactly the
assigned slot for each registered key, and an unregistered key yields
not-found. -/
theorem desc_remap_monotonic :
    (∀ (ops : List (BindingTypes × Nat × Nat)) (btype : BindingTypes),
      List.Sorted (· < ·) (issuedFrom DescRemapData.new ops btype)) ∧
    (let d1 := (DescRemapData.new.insert_missing_binding_into_spare
        BindingTypes.Images 0 0).2
     let d2 := (d1.insert_missing_binding_into_spare BindingTypes.Images 0 1).2
     let d3 := (d2.insert_missing_binding_into_spare BindingTypes.Images 1 0).2
     d3.get_binding BindingTypes.Images 0 0 = some [0] ∧
     d3.get_binding BindingTypes.Images 0 1 = some [1] ∧
     d3.get_binding BindingTypes.Images 1 0 = some [2] ∧
     d3.get_binding BindingTypes.Images 1 1 = none ∧
     d3.get_binding BindingTypes.UniformBuffers 0 0 = none) := by
  refine ⟨fun ops btype => issuedFrom_sorted ops btype _, ?_⟩
  exact ⟨by decide, by decide, by decide, by decide, by decide⟩

/-- Helper: the bit pattern of a single shifted bit. -/
theorem one_shiftLeft_testBit (idx n : Nat) :
    (1 <<< idx).testBit n = decide (n = idx) := by
  rw [Nat.one_shiftLeft, Nat.testBit_two_pow]
  simp [eq_comm]

/-- Helper: the buffer mask built from index `idx` has no bit below
`idx`. -/
theorem buffer_mask_from_testBit_lt (usage : Nat)
    (l : List (MemoryType × MemoryUsage)) :
    ∀ idx n : Nat, n < idx → (buffer_mask_from l idx usage).testBit n = false := by
  induction l with
  | nil =>
    intro idx n _
    simp [buffer_mask_from]
  | cons e rest ih =>
    obtain ⟨mt, ku⟩ := e
    intro idx n hn
    cases ku with
    | Buffer bu =>
      rw [buffer_mask_from, Nat.testBit_lor, ih (idx + 1) n (by omega),
        Bool.or_false]
      split
      · rw [one_shiftLeft_testBit]
        simp
        omega
      · simp
    | Image =>
      rw [buffer_mask_from]
      exact ih (idx + 1) n (by omega)

/-- Helper: the image mask built from index `idx` has no bit below
`idx`. -/
theorem image_mask_from_testBit_lt (l : List (MemoryType × MemoryUsage)) :
    ∀ idx n : Nat, n < idx → (image_mask_from l idx).testBit n = false := by
  induction l with
  | nil =>
    intro idx n _
    simp [image_mask_from]
  | cons e rest ih =>
    obtain ⟨mt, ku⟩ := e
    intro idx n hn
    cases ku with
    | Buffer bu =>
      rw [image_mask_from]
      exact ih (idx + 1) n (by omega)
    | Image =>
      rw [image_mask_from, Nat.testBit_lor, ih (idx + 1) n (by omega),
        Bool.or_false, one_shiftLeft_testBit]
      simp
      omega

/-- Helper: a bit set in the buffer mask is never set in the image mask
(each table entry is classified as exactly one of the two kinds). -/
theorem masks_disjoint_bits (usage : Nat)
    (l : List (MemoryType × MemoryUsage)) :
    ∀ idx n : Nat, (buffer_mask_from l idx usage).testBit n = true →
      (image_mask_from l idx).testBit n = false := by
  induction l with
  | nil =>
    intro idx n h
    simp [buffer_mask_from] at h
  | cons e rest ih =>
    obtain ⟨mt, ku⟩ := e
    intro idx n h
    cases ku with
    | Buffer bu =>
      rw [buffer_mask_from, Nat.testBit_lor, Bool.or_eq_true] at h
      rw [image_mask_from]
      rcases h with h | h
      · have hn : n = idx := by
          split at h
          · rw [one_shiftLeft_testBit] at h
            exact of_decide_eq_true h
          · simp at h
        exact image_mask_from_testBit_lt rest (idx + 1) n (by omega)
      · exact ih (idx + 1) n h
    | Image =>
      rw [buffer_mask_from] at h
      have hne : ¬ n = idx := by
        intro he
        rw [buffer_mask_from_testBit_lt usage rest (idx + 1) n (by omega)] at h
        cases h
      rw [image_mask_from, Nat.testBit_lor, ih (idx + 1) n h, Bool.or_false,
        one_shiftLeft_testBit]
      simp [hne]

/-- Helper: for every `Share`, the buffer and image memory-type masks are
bitwise disjoint. -/
theorem share_masks_disjoint (s : Share) (usage : Nat) :
    s.buffer_memory_type_mask usage &&& s.image_memory_type_mask = 0 := by
  simp only [Share.buffer_memory_type_mask, Share.image_memory_type_mask]
  apply Nat.eq_of_testBit_eq
  intro i
  rw [Nat.testBit_land, Nat.zero_testBit]
  cases hb : (buffer_mask_from s.memory_types 0 usage).testBit i with
  | false => simp [hb]
  | true =>
    rw [masks_disjoint_bits usage s.memory_types 0 i hb]
    simp

/-- **C10.** For every memory-type table produced by adapter construction
and every buffer usage, the bitmask of buffer-compatible type indices and
the bitmask of image-compatible type indices are disjoint (their bitwise
AND is zero). -/
theorem buffer_image_masks_disjoint (caps : PrivateCaps)
    (features legacy_features limits usage : Nat) :
    (new_adapter_share caps features legacy_features limits).buffer_memory_type_mask
        usage &&&
      (new_adapter_share caps features legacy_features limits).image_memory_type_mask
      = 0 :=
  share_masks_disjoint (new_adapter_share caps features legacy_features limits)
    usage

end Gfx
